import Mathlib

/-!
Shallow embedding of the ECS engine in `src/lib/world.ts` and
`src/lib/entitybuilder.ts` (the first revision in `world.ts`, the one the
rest of the repository compiles against).

Modelling conventions:
* JS numbers used as bitmasks are 32-bit signed integers whose bitwise
  operators (`&`, `|`, `<<`) work on the two's-complement bit pattern.  We
  represent every such value by the natural number < 2^32 with the same bit
  pattern, so `&`/`|` become `Nat.land`/`Nat.lor` and equality of the JS
  values coincides with equality of the representatives.  `1 << n` in JS
  shifts by `n mod 32`, hence `2 ^ (n % 32)` here.
* A `ComponentId` is a JS `Symbol` created by `addComponent`; symbols are
  unique per call, so we identify a component id with its registration index
  into the `components` map (whose iteration order is insertion order).
  Likewise systems are identified by registration index.
* JS `Map` objects keyed by entity id (component storages, the builder's
  staging map) are association lists: `set` overwrites in place or appends,
  `delete` removes the entry, preserving order — exactly JS `Map` semantics.
* The `entitiesIndex` cache is keyed in the source by the string
  `` `${require}-${exclude}` ``, which is in bijection with the pair of int32
  values, so we key by the pair of representatives.
* The JS `Set` `entitiesToDestroy` is a duplicate-free list in insertion
  order (`add` appends only when absent).
* Code paths that `throw` are modelled with `Option`/`Except`: `none`/
  `.error` means the exception escaped (all throws here are fatal
  programmer errors, never caught).
* The `globals` object and the component/system name strings only feed
  user callbacks and `Symbol` descriptions; no modelled behaviour depends
  on them, so they are omitted.  System update callbacks (`step`/`updateFn`)
  are arbitrary user code and are not part of the engine; `step` below is
  modelled up to the point where each callback is invoked, returning the
  argument lists the callbacks would receive.
* Component data values are an arbitrary type `α` (JS `any`); a factory is
  a function from its argument list (`List α`) to a data value.
-/

namespace ECS

/-- An entity: `{ id, mask }` from `world.ts`. -/
structure Entity where
  id : Nat
  mask : Nat
  deriving DecidableEq, Repr

/-- A registered component kind: `{ bit, factory?, storage? }` from
`world.ts`.  `factory` and `storage` are both set, or neither (tag
component), mirroring `addComponent`. -/
structure Component (α : Type) where
  bit : Nat
  factory : Option (List α → α)
  storage : Option (List (Nat × α))

/-- A registered system: `{ components, require, exclude, step }` from
`world.ts`, without the user callback (external code, see module header). -/
structure System where
  components : List Nat
  require : Nat
  exclude : Nat
  deriving DecidableEq, Repr

/-- The world state: the fields of class `World` in `world.ts`. -/
structure World (α : Type) where
  components : List (Component α)
  entities : List (Option Entity)
  systems : List System
  entitiesIndex : List ((Nat × Nat) × List Entity)
  entitiesToDestroy : List Nat

/-- JS `Map.prototype.set` on an association list keyed by `Nat`:
overwrite in place if the key is present, else append. -/
def mapSet {β : Type} (s : List (Nat × β)) (id : Nat) (v : β) : List (Nat × β) :=
  if s.any (fun p => p.1 == id) then
    s.map (fun p => if p.1 == id then (id, v) else p)
  else
    s ++ [(id, v)]

/-- JS `Map.prototype.delete`: remove the entry with the given key. -/
def mapDelete {β : Type} (s : List (Nat × β)) (id : Nat) : List (Nat × β) :=
  s.filter (fun p => p.1 ≠ id)

/-- JS `Set.prototype.add`: append unless already present. -/
def setAdd (s : List Nat) (id : Nat) : List Nat :=
  if id ∈ s then s else s ++ [id]

/-- `World.addComponent`: registers a component with bit
`1 << this.components.size` (JS shifts modulo 32) and, when a factory is
given, a fresh empty storage.  Returns the new world and the new
component id (= registration index). -/
def addComponent {α : Type} (w : World α) (factory : Option (List α → α)) :
    World α × Nat :=
  let comp : Component α :=
    { bit := 2 ^ (w.components.length % 32)
      factory := factory
      storage := factory.map (fun _ => []) }
  ({ w with components := w.components ++ [comp] }, w.components.length)

/-- The guard of the incremental index updates in `createEntity` and
`purgeDestroyedEntities`.  In the source the cache key is the string
`` `${require}-${exclude}` `` and both loops recover the masks with
`indexKey.split("-").map(parseInt)`.  `Array.prototype.map` passes the
element index as `parseInt`'s second argument (the radix), so the exclude
field is parsed with radix 1 and is always `NaN`; when `require ≥ 2^31` the
int32 is negative, its decimal string starts with `-`, the first split
field is `""` and the require field is `NaN` as well.  In JS `x & NaN`
is `0` and `0 !== NaN` holds, so the guard
`(mask & require) !== require || mask & exclude` skips always when
`require ≥ 2^31`, and otherwise tests only `(mask & require) === require`
(the exclude test is vacuous). -/
def indexKeyMatches (mask req : Nat) : Bool :=
  decide (req < 2 ^ 31) && (mask &&& req == req)

/-- The entity/mask/storage loop of `World.createEntity`: walks the
component entries accumulating `mask |= bit` and writing
`storage.set(id, factory(...properties))` for components that have a
factory and storage; throws (`none`) on an unregistered component id. -/
def createEntityLoop {α : Type} (id : Nat) :
    List (Component α) → List (Nat × List α) → Nat →
    Option (List (Component α) × Nat)
  | comps, [], mask => some (comps, mask)
  | comps, (cid, props) :: rest, mask =>
    match comps[cid]? with
    | none => none
    | some c =>
      match c.factory, c.storage with
      | some f, some s =>
        createEntityLoop id
          (comps.set cid { c with storage := some (mapSet s id (f props)) })
          rest (mask ||| c.bit)
      | _, _ => createEntityLoop id comps rest (mask ||| c.bit)

/-- `World.createEntity`: allocates id `entities.length`, computes the mask
and populates storages, pushes the entity, then updates every existing
cache entry in place (with the buggy `indexKeyMatches` guard). -/
def createEntity {α : Type} (w : World α) (entries : List (Nat × List α)) :
    Option (World α × Nat) :=
  let id := w.entities.length
  match createEntityLoop id w.components entries 0 with
  | none => none
  | some (comps, mask) =>
    let entity : Entity := ⟨id, mask⟩
    some ({ w with
              components := comps
              entities := w.entities ++ [some entity]
              entitiesIndex := w.entitiesIndex.map (fun kl =>
                if indexKeyMatches mask kl.1.1 then (kl.1, kl.2 ++ [entity])
                else kl) },
          id)

/-- `World.destroyEntity`: only enqueues the id. -/
def destroyEntity {α : Type} (w : World α) (id : Nat) : World α :=
  { w with entitiesToDestroy := setAdd w.entitiesToDestroy id }

/-- A requirement-list element: a bare component id, `Maybe(id)` or
`Not(id)` from `world.ts`. -/
inductive Req where
  | plain (cid : Nat)
  | maybe (cid : Nat)
  | not (cid : Nat)
  deriving DecidableEq, Repr

/-- The underlying component id of a requirement. -/
def Req.cid : Req → Nat
  | .plain c => c
  | .maybe c => c
  | .not c => c

/-- The loop of `World.resolveAnyComponentIds`: accumulates the pushed
component ids and `require`/`exclude` masks; throws (`none`) on an
unregistered component id. -/
def resolveLoop {α : Type} (comps : List (Component α)) :
    List Req → List Nat × Nat × Nat → Option (List Nat × Nat × Nat)
  | [], acc => some acc
  | r :: rest, (cids, req, exc) =>
    match comps[r.cid]? with
    | none => none
    | some c =>
      resolveLoop comps rest
        (cids ++ [r.cid],
         (match r with | .plain _ => req ||| c.bit | _ => req),
         (match r with | .not _ => exc ||| c.bit | _ => exc))

/-- `World.resolveAnyComponentIds`. -/
def resolveAnyComponentIds {α : Type} (w : World α) (ids : List Req) :
    Option (List Nat × Nat × Nat) :=
  resolveLoop w.components ids ([], 0, 0)

/-- The predicate of the fresh scan in `World.filterEntities`:
`(e.mask & require) === require && !(e.mask & exclude)`. -/
def entityMatches (e : Entity) (req exc : Nat) : Bool :=
  (e.mask &&& req == req) && (e.mask &&& exc == 0)

/-- The from-scratch scan of `World.filterEntities`:
`this.entities.filter(e => e && (e.mask & require) === require && !(e.mask & exclude))`
(null slots are skipped). -/
def freshScan (entities : List (Option Entity)) (req exc : Nat) : List Entity :=
  entities.filterMap (fun oe =>
    oe.bind (fun e => if entityMatches e req exc then some e else none))

/-- Cache lookup: `this.entitiesIndex.get(indexKey)`. -/
def lookupIndex (idx : List ((Nat × Nat) × List Entity)) (key : Nat × Nat) :
    Option (List Entity) :=
  (idx.find? (fun kl => kl.1 == key)).map (fun kl => kl.2)

/-- `World.filterEntities`: return the cached list if present, else build
it by a fresh scan and cache it. -/
def filterEntities {α : Type} (w : World α) (req exc : Nat) :
    World α × List Entity :=
  match lookupIndex w.entitiesIndex (req, exc) with
  | some lst => (w, lst)
  | none =>
    let lst := freshScan w.entities req exc
    ({ w with entitiesIndex := w.entitiesIndex ++ [((req, exc), lst)] }, lst)

/-- `World.query`: resolve the requirement list (throwing on unregistered
ids), then filter through the cache. -/
def query {α : Type} (w : World α) (ids : List Req) :
    Option (World α × List Entity) :=
  match resolveAnyComponentIds w ids with
  | none => none
  | some (_, req, exc) => some (filterEntities w req exc)

/-- `World.addSystem`: resolve the requirement list once and store the
system record in registration order; returns the new system id
(= registration index). -/
def addSystem {α : Type} (w : World α) (ids : List Req) :
    Option (World α × Nat) :=
  match resolveAnyComponentIds w ids with
  | none => none
  | some (cids, req, exc) =>
    some ({ w with systems := w.systems ++ [⟨cids, req, exc⟩] },
          w.systems.length)

/-- The inner loop of the storage-cleanup phase of
`World.purgeDestroyedEntities`, for one component with storage: for each
queued id, `const { mask } = this.entities[id]!` (destructuring `null` or
`undefined` throws, modelled by `none`), then delete the storage entry
when the mask includes the component's bit. -/
def purgeStorageLoop {α : Type} (entities : List (Option Entity))
    (bit : Nat) : List Nat → List (Nat × α) → Option (List (Nat × α))
  | [], s => some s
  | id :: rest, s =>
    match entities[id]? with
    | some (some e) =>
      if e.mask &&& bit == 0 then purgeStorageLoop entities bit rest s
      else purgeStorageLoop entities bit rest (mapDelete s id)
    | _ => none

/-- The storage-cleanup phase of `World.purgeDestroyedEntities`: every
component with storage drops the entries of the queued ids whose mask
includes its bit. -/
def purgeStorages {α : Type} (entities : List (Option Entity))
    (toDestroy : List Nat) : List (Component α) → Option (List (Component α))
  | [] => some []
  | c :: rest =>
    match c.storage with
    | none => (purgeStorages entities toDestroy rest).map (fun cs => c :: cs)
    | some s =>
      match purgeStorageLoop entities c.bit toDestroy s with
      | none => none
      | some s2 =>
        (purgeStorages entities toDestroy rest).map
          (fun cs => { c with storage := some s2 } :: cs)

/-- `indexList.splice(indexList.indexOf(entity), 1)` from
`purgeDestroyedEntities`.  `indexOf` compares by object identity; within
one world entities are uniquely determined by their id (ids are never
reused), so we search by id.  When the entity is absent `indexOf` returns
`-1` and `splice(-1, 1)` removes the LAST element (or nothing when the
list is empty). -/
def spliceRemove (lst : List Entity) (eid : Nat) : List Entity :=
  if lst.any (fun e => e.id == eid) then lst.eraseP (fun e => e.id == eid)
  else lst.dropLast

/-- The per-index loop of the cache-update phase of
`World.purgeDestroyedEntities`: for each queued id, dereference the entity
(`none` on a null/missing slot), skip unless the buggy parsed guard
matches (see `indexKeyMatches`), else splice the entity out. -/
def purgeIndexLoop (entities : List (Option Entity)) (req : Nat) :
    List Nat → List Entity → Option (List Entity)
  | [], lst => some lst
  | id :: rest, lst =>
    match entities[id]? with
    | some (some e) =>
      if indexKeyMatches e.mask req then
        purgeIndexLoop entities req rest (spliceRemove lst e.id)
      else purgeIndexLoop entities req rest lst
    | _ => none

/-- The cache-update phase of `World.purgeDestroyedEntities`, over every
cache entry. -/
def purgeIndexes (entities : List (Option Entity)) (toDestroy : List Nat) :
    List ((Nat × Nat) × List Entity) →
    Option (List ((Nat × Nat) × List Entity))
  | [] => some []
  | (key, lst) :: rest =>
    match purgeIndexLoop entities key.1 toDestroy lst with
    | none => none
    | some lst2 =>
      (purgeIndexes entities toDestroy rest).map (fun is => (key, lst2) :: is)

/-- `this.entities[id] = null` for every queued id.  (An id beyond the
array would already have crashed the earlier phases whenever any storage
component or cache entry exists; the claims only ever destroy live ids.) -/
def nullSlots (entities : List (Option Entity)) (toDestroy : List Nat) :
    List (Option Entity) :=
  toDestroy.foldl (fun es id => es.set id none) entities

/-- `World.purgeDestroyedEntities`: early-return on an empty queue, else
clean storages, prune cache entries, null the slots and clear the queue.
`none` models the `TypeError` thrown when a queued id has no live
entity. -/
def purgeDestroyedEntities {α : Type} (w : World α) : Option (World α) :=
  if w.entitiesToDestroy.isEmpty then some w
  else
    match purgeStorages w.entities w.entitiesToDestroy w.components with
    | none => none
    | some comps =>
      match purgeIndexes w.entities w.entitiesToDestroy w.entitiesIndex with
      | none => none
      | some idx =>
        some { w with
                 components := comps
                 entitiesIndex := idx
                 entities := nullSlots w.entities w.entitiesToDestroy
                 entitiesToDestroy := [] }

/-- The storage-collection loop of `World.step` for one system: walk the
system's component ids in requirement-declaration order, throw
(`none`, "internal state error") on an unregistered id, skip components
without storage, and pass the storage of every other one. -/
def systemStorageList {α : Type} (comps : List (Component α)) :
    List Nat → Option (List (List (Nat × α)))
  | [] => some []
  | cid :: rest =>
    match comps[cid]? with
    | none => none
    | some c =>
      match c.storage with
      | none => systemStorageList comps rest
      | some s => (systemStorageList comps rest).map (fun ss => s :: ss)

/-- The system loop of `World.step`: for each system in registration order,
fetch its entity list through the cache (threading the world, since
`filterEntities` may add a cache entry) and collect its storage list.
Returns the final world plus, per system, the `(entities, storages)`
arguments its callback receives (the callback itself is external user
code, not modelled). -/
def stepSystems {α : Type} (w : World α) :
    List System →
    Option (World α × List (List Entity × List (List (Nat × α))))
  | [] => some (w, [])
  | sys :: rest =>
    let p := filterEntities w sys.require sys.exclude
    match systemStorageList p.1.components sys.components with
    | none => none
    | some sl =>
      match stepSystems p.1 rest with
      | none => none
      | some (w2, calls) => some (w2, (p.2, sl) :: calls)

/-- `World.step` (the spec's `advanceTick()`): purge deferred destructions
first, then run every system, in registration order. -/
def step {α : Type} (w : World α) :
    Option (World α × List (List Entity × List (List (Nat × α)))) :=
  match purgeDestroyedEntities w with
  | none => none
  | some w1 => stepSystems w1 w1.systems

/-- The entity builder from `entitybuilder.ts`: `components` and `world`
are both present until `create()` succeeds and clears them. -/
structure EntityBuilder (α : Type) where
  components : Option (List (Nat × List α))
  world : Option (World α)

/-- `world.entity()`: a fresh builder bound to the world. -/
def entity {α : Type} (w : World α) : EntityBuilder α :=
  ⟨some [], some w⟩

/-- `EntityBuilder.with`: throws `invalid builder use` once consumed;
otherwise stages the properties under the component id
(`this.components.set(component, properties)`) with no registration
check.  (`with` is a Lean keyword, hence the prime.) -/
def EntityBuilder.with' {α : Type} (b : EntityBuilder α) (cid : Nat)
    (props : List α) : Except String (EntityBuilder α) :=
  match b.components, b.world with
  | some cs, some w => .ok ⟨some (mapSet cs cid props), some w⟩
  | _, _ => .error "invalid builder use"

/-- `EntityBuilder.create`: throws `invalid builder use` once consumed;
otherwise commits the staged entries through `World.createEntity`
(whose `invalid component` throw propagates, leaving the builder live)
and clears both fields. -/
def EntityBuilder.create {α : Type} (b : EntityBuilder α) :
    Except String (World α × Nat × EntityBuilder α) :=
  match b.components, b.world with
  | some cs, some w =>
    match createEntity w cs with
    | none => .error "invalid component"
    | some (w2, id) => .ok (w2, id, ⟨none, none⟩)
  | _, _ => .error "invalid builder use"

/-- A fresh world over `Nat` data, as built by `new World(globals)`. -/
def emptyWorld : World Nat :=
  { components := [], entities := [], systems := [],
    entitiesIndex := [], entitiesToDestroy := [] }

/-! Concrete run for the cache-staleness scenario: two tag components
A (bit 1) and B (bit 2); `query([A, Not(B)])` caches the (empty) list for
the mask pair (1, 2); then an entity carrying both A and B is created. -/

/-- World with tag components A (id 0, bit 1) and B (id 1, bit 2). -/
def c1WorldAB : World Nat :=
  (addComponent (addComponent emptyWorld none).1 none).1

/-- `c1WorldAB` after `query([A, Not(B)])` has cached the pair (1, 2). -/
def c1WorldQueried : World Nat :=
  ((query c1WorldAB [.plain 0, .not 1]).getD (c1WorldAB, [])).1

/-- `c1WorldQueried` after creating an entity carrying both A and B
(mask 3). -/
def c1WorldCreated : World Nat :=
  ((createEntity c1WorldQueried [(0, []), (1, [])]).getD (c1WorldQueried, 0)).1

/-- C1.  Query-cache correctness fails on the code: after
`query([A, Not(B)])` has cached the mask pair (1, 2), creating an entity
that carries both A and B pushes it into that cache entry (the exclude
check in `createEntity`'s index update is defeated by
`split("-").map(parseInt)` parsing the exclude mask as `NaN`), so the next
`query([A, Not(B)])` — with no intervening tick — returns the entity even
though a from-scratch scan of the live entities with the pair's predicate
excludes it. -/
theorem C1_cache_goes_stale :
    (query c1WorldQueried [.plain 0, .not 1]).map (fun p => p.2) = some [] ∧
    (createEntity c1WorldQueried [(0, []), (1, [])]).isSome = true ∧
    c1WorldCreated.entities = [some ⟨0, 3⟩] ∧
    (query c1WorldCreated [.plain 0, .not 1]).map (fun p => p.2) =
      some [⟨0, 3⟩] ∧
    freshScan c1WorldCreated.entities 1 2 = [] := by
  refine ⟨?_, ?_, ?_, ?_, ?_⟩ <;> decide

/-! Concrete run for the destruction-deferral scenario at the mask-width
boundary: 32 tag components, an entity carrying only the 32nd (bit
`2^31`, a negative JS int32), a cached query requiring it, then destroy
and purge. -/

/-- World with 32 tag components (bits `2^0 .. 2^31`). -/
def c2World32 : World Nat :=
  (List.range 32).foldl (fun w _ => (addComponent w none).1) emptyWorld

/-- `c2World32` plus an entity carrying only component 31 (mask `2^31`). -/
def c2WorldEnt : World Nat :=
  ((createEntity c2World32 [(31, [])]).getD (c2World32, 0)).1

/-- `c2WorldEnt` after `query([c31])` has cached the pair `(2^31, 0)`. -/
def c2WorldQueried : World Nat :=
  ((query c2WorldEnt [.plain 31]).getD (c2WorldEnt, [])).1

/-- `c2WorldQueried` after destroying entity 0 and purging at the next
tick. -/
def c2WorldPurged : Option (World Nat) :=
  purgeDestroyedEntities (destroyEntity c2WorldQueried 0)

/-- C2.  Destruction deferral fails on the code: with 32 registered
components, an entity carrying component 31 (bit `2^31`) sits in the
cache entry for require mask `2^31`.  During the purge the index key
string starts with `-` (negative int32), `split("-").map(parseInt)`
parses the require mask as `NaN`, the removal guard never fires, and the
destroyed entity — whose slot is already nulled — is still returned by
the same query after the tick. -/
theorem C2_destroyed_entity_outlives_purge :
    c2WorldPurged.isSome = true ∧
    (c2WorldPurged.getD emptyWorld).entities = [none] ∧
    (query (c2WorldPurged.getD emptyWorld) [.plain 31]).map (fun p => p.2) =
      some [⟨0, 2147483648⟩] := by
  refine ⟨?_, ?_, ?_⟩ <;> decide

/-- World after 33 successive tag-component registrations. -/
def c3World33 : World Nat :=
  (List.range 33).foldl (fun w _ => (addComponent w none).1) emptyWorld

/-- C3 counterexample.  The 33rd registration does not fail: all 33
registrations go through (`addComponent` is total and the components list
has length 33) and the 33rd component is silently assigned bit
`1 << 32 = 1` (JS shifts modulo 32), the same bit as the 1st component —
an overlapping bit rather than a fatal error. -/
theorem C3_thirtythird_registration_overlaps :
    c3World33.components.length = 33 ∧
    (c3World33.components[32]?).map Component.bit = some 1 ∧
    (c3World33.components[0]?).map Component.bit = some 1 := by
  refine ⟨?_, ?_, ?_⟩ <;> decide

/-- C3 (amended).  `registerComponent` assigns the i-th registered kind
the bit `1 << (i % 32)`: registration always succeeds (appending one
component), the first 32 kinds receive pairwise-distinct powers of two,
and past 32 kinds the bit silently wraps and overlaps instead of
failing. -/
theorem C3_bit_assignment :
    (∀ (w : World Nat) (f : Option (List Nat → Nat)),
      (addComponent w f).1.components.length = w.components.length + 1 ∧
      ((addComponent w f).1.components[w.components.length]?).map
          Component.bit = some (2 ^ (w.components.length % 32))) ∧
    (∀ i, i < 32 → ∀ j, j < 32 → i ≠ j →
      (c3World33.components[i]?).map Component.bit ≠
        (c3World33.components[j]?).map Component.bit) := by
  constructor
  · intro w f
    constructor
    · simp [addComponent]
    · simp [addComponent, List.getElem?_concat_length]
  · decide

/-- Witness for `C3_bit_assignment` at concrete inputs: one registration
on the empty world, and distinctness of the bits of components 0 and 1. -/
theorem C3_bit_assignment_witness :
    (addComponent emptyWorld none).1.components.length = 1 ∧
    (c3World33.components[0]?).map Component.bit ≠
      (c3World33.components[1]?).map Component.bit :=
  ⟨(C3_bit_assignment.1 emptyWorld none).1,
   C3_bit_assignment.2 0 (by decide) 1 (by decide) (by decide)⟩

/-- World with one component A (id 0) that has a factory and storage,
plus one registered system with requirement list `[Not(A)]`. -/
def c4World : World Nat :=
  ((addSystem (addComponent emptyWorld (some (fun _ => 0))).1 [.not 0]).getD
    ((addComponent emptyWorld (some (fun _ => 0))).1, 0)).1

/-- C4.  Accessor-list shape fails on the code: for a system registered
with requirement list `[Not(A)]` where A has storage, the resolver pushes
A into the system's component list, and `step`'s storage-collection loop
only skips components *without* storage — so the excluded component's
storage is passed as an accessor.  The callback of the single system
receives 1 accessor where the claim (and the declared
`Drop<..., ReadonlyStorage<NoStorage>>` parameter type of `StepFn`)
says excluded components contribute none. -/
theorem C4_excluded_component_contributes_accessor :
    c4World.systems = [⟨[0], 0, 1⟩] ∧
    systemStorageList c4World.components [0] = some [[]] ∧
    (step c4World).map (fun p => p.2.map (fun call => call.2.length)) =
      some [1] := by
  refine ⟨?_, ?_, ?_⟩ <;> rfl

/-- If some requirement in the list names an unregistered component, the
resolver loop throws, whatever the accumulator. -/
theorem resolveLoop_none_of_unregistered {α : Type}
    (comps : List (Component α)) (ids : List Req) (r : Req)
    (hmem : r ∈ ids) (hr : comps[r.cid]? = none) :
    ∀ acc, resolveLoop comps ids acc = none := by
  induction hmem with
  | head as =>
    intro acc
    obtain ⟨cids, req, exc⟩ := acc
    simp [resolveLoop, hr]
  | tail b _ ih =>
    intro acc
    obtain ⟨cids, req, exc⟩ := acc
    cases hc : comps[b.cid]? with
    | none => simp [resolveLoop, hc]
    | some c =>
      simp only [resolveLoop, hc]
      exact ih _

/-- If some staged entry names an unregistered component, `createEntity`'s
loop throws: storage writes only `set` existing positions, so the
components list never grows and the offending lookup still fails when
reached. -/
theorem createEntityLoop_none_of_unregistered {α : Type} (id : Nat)
    (entries : List (Nat × List α)) (cid : Nat) (props : List α)
    (hmem : (cid, props) ∈ entries) :
    ∀ (comps : List (Component α)) (m : Nat), comps.length ≤ cid →
      createEntityLoop id comps entries m = none := by
  induction hmem with
  | head as =>
    intro comps m hlen
    simp [createEntityLoop, List.getElem?_eq_none hlen]
  | tail b _ ih =>
    intro comps m hlen
    obtain ⟨c2, ps2⟩ := b
    cases hc : comps[c2]? with
    | none => simp [createEntityLoop, hc]
    | some c =>
      cases hf : c.factory with
      | none =>
        simp only [createEntityLoop, hc]
        rw [hf]
        exact ih comps _ hlen
      | some f =>
        cases hs : c.storage with
        | none =>
          simp only [createEntityLoop, hc]
          rw [hf, hs]
          exact ih comps _ hlen
        | some s =>
          simp only [createEntityLoop, hc]
          rw [hf, hs]
          exact ih _ _ (by simpa using hlen)

/-- C8 counterexample.  `with()` on a live builder referencing a component
handle that was never registered in the world does NOT fail at the call:
it stages the handle and returns the updated builder; the
`invalid component` error only surfaces later, at `create()`. -/
theorem C8_with_accepts_unregistered_handle :
    EntityBuilder.with' (entity emptyWorld) 0 [] =
      .ok ⟨some [(0, [])], some emptyWorld⟩ ∧
    EntityBuilder.create (⟨some [(0, [])], some emptyWorld⟩ :
        EntityBuilder Nat) = .error "invalid component" :=
  ⟨rfl, rfl⟩

/-- C8 (amended).  Referencing an unregistered component handle fails
immediately in `query()` and in system registration (`addSystem`), at the
call that references the handle.  A builder's `with()`, however, performs
no registration check — it stages the handle and succeeds — and the
failure surfaces later, at `create()`, when `createEntity` rejects the
invalid component. -/
theorem C8_unregistered_handle_errors {α : Type} (w : World α)
    (ids : List Req) (r : Req) (hmem : r ∈ ids)
    (hunreg : w.components.length ≤ r.cid) :
    query w ids = none ∧
    addSystem w ids = none ∧
    (∀ (cs : List (Nat × List α)) (props : List α),
      EntityBuilder.with' ⟨some cs, some w⟩ r.cid props =
        .ok ⟨some (mapSet cs r.cid props), some w⟩) ∧
    (∀ (cs : List (Nat × List α)) (props : List α), (r.cid, props) ∈ cs →
      EntityBuilder.create (⟨some cs, some w⟩ : EntityBuilder α) =
        .error "invalid component") := by
  have hres : resolveAnyComponentIds w ids = none :=
    resolveLoop_none_of_unregistered w.components ids r hmem
      (List.getElem?_eq_none hunreg) _
  refine ⟨?_, ?_, ?_, ?_⟩
  · simp [query, hres]
  · simp [addSystem, hres]
  · intro cs props; rfl
  · intro cs props hmemcs
    have hloop := createEntityLoop_none_of_unregistered w.entities.length
      cs r.cid props hmemcs w.components 0 hunreg
    simp [EntityBuilder.create, createEntity, hloop]

/-- Witness for `C8_unregistered_handle_errors`: the empty world and the
single-element requirement list naming unregistered component 0. -/
theorem C8_unregistered_handle_errors_witness :
    Req.plain 0 ∈ [Req.plain 0] ∧
    emptyWorld.components.length ≤ (Req.plain 0).cid ∧
    query emptyWorld [.plain 0] = none :=
  ⟨by decide, by decide,
   (C8_unregistered_handle_errors emptyWorld [.plain 0] (.plain 0)
     (by decide) (by decide)).1⟩

/-- C6.  Builder single-use: once `create()` has succeeded, both a second
`create()` and any `with()` on the builder fail with the invalid-use
error; and the successful `create()` committed exactly the staged
components through `createEntity`, returning the new entity id. -/
theorem C6_builder_single_use {α : Type} (b : EntityBuilder α)
    (w2 : World α) (id : Nat) (b2 : EntityBuilder α)
    (h : EntityBuilder.create b = .ok (w2, id, b2)) :
    EntityBuilder.create b2 = .error "invalid builder use" ∧
    (∀ (cid : Nat) (props : List α),
      EntityBuilder.with' b2 cid props = .error "invalid builder use") ∧
    ∃ (cs : List (Nat × List α)) (w : World α),
      b.components = some cs ∧ b.world = some w ∧
      createEntity w cs = some (w2, id) := by
  obtain ⟨bc, bw⟩ := b
  cases bc with
  | none => simp [EntityBuilder.create] at h
  | some cs =>
    cases bw with
    | none => simp [EntityBuilder.create] at h
    | some w =>
      simp only [EntityBuilder.create] at h
      cases hce : createEntity w cs with
      | none => rw [hce] at h; simp at h
      | some p =>
        obtain ⟨w2', id'⟩ := p
        rw [hce] at h
        simp only [Except.ok.injEq, Prod.mk.injEq] at h
        obtain ⟨hw, hid, hb2⟩ := h
        subst hw; subst hid; subst hb2
        exact ⟨rfl, fun _ _ => rfl, cs, w, rfl, rfl, hce⟩

/-- Witness for `C6_builder_single_use`: a fresh builder on the empty
world whose `create()` succeeds, after which `create()` errors. -/
theorem C6_builder_single_use_witness :
    EntityBuilder.create (entity emptyWorld) =
      .ok (({ emptyWorld with entities := [some ⟨0, 0⟩] } : World Nat), 0,
           (⟨none, none⟩ : EntityBuilder Nat)) ∧
    EntityBuilder.create (⟨none, none⟩ : EntityBuilder Nat) =
      .error "invalid builder use" :=
  ⟨rfl, (C6_builder_single_use (entity emptyWorld) _ 0 _ rfl).1⟩

/-- C9.  Destroy idempotence: enqueueing the same id twice leaves the
destruction queue — hence the whole world, hence the world after the next
tick's purge — identical to enqueueing it once. -/
theorem C9_destroy_idempotent {α : Type} (w : World α) (id : Nat) :
    destroyEntity (destroyEntity w id) id = destroyEntity w id ∧
    purgeDestroyedEntities (destroyEntity (destroyEntity w id) id) =
      purgeDestroyedEntities (destroyEntity w id) := by
  have h : setAdd (setAdd w.entitiesToDestroy id) id
      = setAdd w.entitiesToDestroy id := by
    by_cases hmem : id ∈ w.entitiesToDestroy
    · simp [setAdd, hmem]
    · simp [setAdd, hmem]
  have h2 : destroyEntity (destroyEntity w id) id = destroyEntity w id := by
    simp [destroyEntity, h]
  exact ⟨h2, by rw [h2]⟩

/-- A successful `query` leaves every field but the cache untouched, and
the cache at most gains one entry for a fresh key (shared helper). -/
theorem query_preserves {α : Type} {w : World α} {ids : List Req}
    {w2 : World α} {res : List Entity} (h : query w ids = some (w2, res)) :
    w2.entities = w.entities ∧ w2.components = w.components ∧
    w2.systems = w.systems ∧
    w2.entitiesToDestroy = w.entitiesToDestroy ∧
    (w2.entitiesIndex = w.entitiesIndex ∨
      ∃ key : Nat × Nat, lookupIndex w.entitiesIndex key = none ∧
        w2.entitiesIndex = w.entitiesIndex ++ [(key, res)]) := by
  unfold query at h
  cases hres : resolveAnyComponentIds w ids with
  | none => rw [hres] at h; simp at h
  | some t =>
    obtain ⟨cids, req, exc⟩ := t
    rw [hres] at h
    simp only [Option.some.injEq] at h
    unfold filterEntities at h
    cases hlook : lookupIndex w.entitiesIndex (req, exc) with
    | some lst =>
      rw [hlook] at h
      simp only [Prod.mk.injEq] at h
      obtain ⟨hw, hres2⟩ := h
      subst hw
      exact ⟨rfl, rfl, rfl, rfl, Or.inl rfl⟩
    | none =>
      rw [hlook] at h
      simp only [Prod.mk.injEq] at h
      obtain ⟨hw, hres2⟩ := h
      subst hw; subst hres2
      exact ⟨rfl, rfl, rfl, rfl, Or.inr ⟨(req, exc), hlook, rfl⟩⟩

/-- C10.  Query frame effect: a successful `query` leaves the entities
(with their ids and masks), the component registry (with its storages),
the systems and the pending destruction queue untouched; the cache either
is unchanged or gains exactly one new entry, keyed by a
previously-unqueried mask pair and holding the returned list. -/
theorem C10_query_frame {α : Type} (w : World α) (ids : List Req)
    (w2 : World α) (res : List Entity) (h : query w ids = some (w2, res)) :
    w2.entities = w.entities ∧ w2.components = w.components ∧
    w2.systems = w.systems ∧
    w2.entitiesToDestroy = w.entitiesToDestroy ∧
    (w2.entitiesIndex = w.entitiesIndex ∨
      ∃ key : Nat × Nat, lookupIndex w.entitiesIndex key = none ∧
        w2.entitiesIndex = w.entitiesIndex ++ [(key, res)]) :=
  query_preserves h

/-- Witness for `C10_query_frame`: the empty requirement list on the empty
world; the query succeeds and the entity list is untouched. -/
theorem C10_query_frame_witness :
    query emptyWorld [] =
      some (({ emptyWorld with entitiesIndex := [((0, 0), [])] } : World Nat),
            []) ∧
    ({ emptyWorld with entitiesIndex := [((0, 0), [])] } : World Nat).entities
      = emptyWorld.entities :=
  ⟨rfl, (C10_query_frame emptyWorld [] _ [] rfl).1⟩

/-- Modelled from the spec's words, for comparison with the resolver:
"`requireMask` (OR of all required bits)" — the OR of the bits of the
plain (required) handles of the list, left to right, from `acc`;
optional (`Maybe`) and excluded (`Not`) handles contribute nothing. -/
def specRequireMask {α : Type} (comps : List (Component α)) (acc : Nat) :
    List Req → Nat
  | [] => acc
  | .plain c :: rest =>
    specRequireMask comps (acc ||| ((comps[c]?).map Component.bit).getD 0) rest
  | _ :: rest => specRequireMask comps acc rest

/-- Modelled from the spec's words, for comparison with the resolver:
"`excludeMask` (OR of all excluded bits)" — the OR of the bits of the
`Not`-modified handles of the list, left to right, from `acc`; plain and
optional handles contribute nothing. -/
def specExcludeMask {α : Type} (comps : List (Component α)) (acc : Nat) :
    List Req → Nat
  | [] => acc
  | .not c :: rest =>
    specExcludeMask comps (acc ||| ((comps[c]?).map Component.bit).getD 0) rest
  | _ :: rest => specExcludeMask comps acc rest

/-- The resolver loop refines the spec masks: on a fully registered
requirement list it succeeds, pushes the underlying ids in order, and
accumulates exactly the spec's require/exclude ORs. -/
theorem resolveLoop_eq {α : Type} (comps : List (Component α)) :
    ∀ (ids : List Req), (∀ r ∈ ids, r.cid < comps.length) →
    ∀ (cids : List Nat) (req exc : Nat),
      resolveLoop comps ids (cids, req, exc) =
        some (cids ++ ids.map Req.cid,
              specRequireMask comps req ids,
              specExcludeMask comps exc ids) := by
  intro ids
  induction ids with
  | nil =>
    intro _ cids req exc
    simp [resolveLoop, specRequireMask, specExcludeMask]
  | cons hd tl ih =>
    intro hreg cids req exc
    have hhd : hd.cid < comps.length := hreg hd (List.mem_cons_self _ _)
    have hc : comps[hd.cid]? = some comps[hd.cid] := List.getElem?_eq_getElem hhd
    have htl : ∀ r ∈ tl, r.cid < comps.length :=
      fun r hr => hreg r (List.mem_cons_of_mem _ hr)
    cases hd with
    | plain c0 =>
      have hc' : comps[c0]? = some comps[c0] := hc
      have hstep : resolveLoop comps (Req.plain c0 :: tl) (cids, req, exc)
          = resolveLoop comps tl (cids ++ [c0], req ||| comps[c0].bit, exc) := by
        simp only [resolveLoop, Req.cid] at hc ⊢
        rw [hc]
      rw [hstep, ih htl]
      simp [specRequireMask, specExcludeMask, hc', Req.cid]
    | maybe c0 =>
      have hc' : comps[c0]? = some comps[c0] := hc
      have hstep : resolveLoop comps (Req.maybe c0 :: tl) (cids, req, exc)
          = resolveLoop comps tl (cids ++ [c0], req, exc) := by
        simp only [resolveLoop, Req.cid] at hc ⊢
        rw [hc]
      rw [hstep, ih htl]
      simp [specRequireMask, specExcludeMask, hc', Req.cid]
    | not c0 =>
      have hc' : comps[c0]? = some comps[c0] := hc
      have hstep : resolveLoop comps (Req.not c0 :: tl) (cids, req, exc)
          = resolveLoop comps tl (cids ++ [c0], req, exc ||| comps[c0].bit) := by
        simp only [resolveLoop, Req.cid] at hc ⊢
        rw [hc]
      rw [hstep, ih htl]
      simp [specRequireMask, specExcludeMask, hc', Req.cid]

/-- C5.  Requirement resolution: on any fully registered requirement list
the resolver yields the underlying handles in declaration order, the
require mask as the OR of the plain handles' bits and the exclude mask as
the OR of the `Not` handles' bits (`Maybe` handles contribute to
neither); consequently `[A, Maybe(B), Not(C)]` resolves to masks
`(A.bit, C.bit)` and — queried while the pair is uncached, so the list is
built by the from-scratch scan — matches exactly the live entities
carrying A's bit and not carrying C's bit, regardless of B. -/
theorem C5_requirement_resolution {α : Type} (w : World α) (ids : List Req)
    (hreg : ∀ r ∈ ids, r.cid < w.components.length)
    (a b c : Nat) (ca cb cc : Component α)
    (ha : w.components[a]? = some ca)
    (hb : w.components[b]? = some cb)
    (hc : w.components[c]? = some cc)
    (hmiss : lookupIndex w.entitiesIndex (ca.bit, cc.bit) = none) :
    resolveAnyComponentIds w ids =
      some (ids.map Req.cid, specRequireMask w.components 0 ids,
            specExcludeMask w.components 0 ids) ∧
    resolveAnyComponentIds w [.plain a, .maybe b, .not c] =
      some ([a, b, c], ca.bit, cc.bit) ∧
    (query w [.plain a, .maybe b, .not c]).map (fun p => p.2) =
      some (w.entities.filterMap (fun oe => oe.bind (fun e =>
        if (e.mask &&& ca.bit == ca.bit) && (e.mask &&& cc.bit == 0)
        then some e else none))) := by
  have h2 : resolveAnyComponentIds w [.plain a, .maybe b, .not c] =
      some ([a, b, c], ca.bit, cc.bit) := by
    simp [resolveAnyComponentIds, resolveLoop, Req.cid, ha, hb, hc]
  refine ⟨?_, h2, ?_⟩
  · unfold resolveAnyComponentIds
    rw [resolveLoop_eq w.components ids hreg [] 0 0]
    simp
  · simp [query, h2, filterEntities, hmiss, freshScan, entityMatches]

/-- World with three tag components A (bit 1), B (bit 2), C (bit 4). -/
def c5World : World Nat :=
  (addComponent (addComponent (addComponent emptyWorld none).1 none).1 none).1

/-- Witness for `C5_requirement_resolution`: the three-component world;
`[A, Maybe(B), Not(C)]` resolves to masks `(1, 4)`. -/
theorem C5_requirement_resolution_witness :
    c5World.components[0]? = some ⟨1, none, none⟩ ∧
    resolveAnyComponentIds c5World [.plain 0, .maybe 1, .not 2] =
      some ([0, 1, 2], 1, 4) :=
  ⟨rfl,
   (C5_requirement_resolution c5World [.plain 0, .maybe 1, .not 2]
      (by decide) 0 1 2 ⟨1, none, none⟩ ⟨2, none, none⟩ ⟨4, none, none⟩
      rfl rfl rfl rfl).2.1⟩

/-- The OR of the bits of the components named by the staged entries (the
spec's "bitwise OR of the bits of the components it was given at
creation"). -/
def maskFromEntries {α : Type} (comps : List (Component α))
    (entries : List (Nat × List α)) : Nat :=
  entries.foldl (fun m e => m ||| ((comps[e.1]?).map Component.bit).getD 0) 0

/-- Replacing a component in place with one of equal bit leaves every
position's bit unchanged. -/
theorem getElem?_map_bit_set {α : Type} (comps : List (Component α))
    (cid : Nat) (c c' : Component α) (hc : comps[cid]? = some c)
    (hbit : c'.bit = c.bit) (i : Nat) :
    ((comps.set cid c')[i]?).map Component.bit
      = (comps[i]?).map Component.bit := by
  rcases eq_or_ne cid i with rfl | hne
  · have hlt : cid < comps.length := by
      rcases List.getElem?_eq_some_iff.mp hc with ⟨hl, _⟩
      exact hl
    rw [List.getElem?_set_self hlt, hc]
    simp [hbit]
  · rw [List.getElem?_set_ne hne]

/-- The `createEntity` loop only rewrites storages — every component keeps
its bit — and accumulates exactly the OR of the bits of the staged
entries' components. -/
theorem createEntityLoop_spec {α : Type} (id : Nat) :
    ∀ (entries : List (Nat × List α)) (comps : List (Component α)) (m : Nat)
      (out : List (Component α) × Nat),
      createEntityLoop id comps entries m = some out →
      (∀ i : Nat, (out.1[i]?).map Component.bit
        = (comps[i]?).map Component.bit) ∧
      out.2 = entries.foldl
        (fun acc e => acc ||| ((comps[e.1]?).map Component.bit).getD 0) m := by
  intro entries
  induction entries with
  | nil =>
    intro comps m out h
    simp only [createEntityLoop, Option.some.injEq] at h
    subst h
    exact ⟨fun i => rfl, rfl⟩
  | cons hd tl ih =>
    intro comps m out h
    obtain ⟨cid, props⟩ := hd
    cases hc : comps[cid]? with
    | none =>
      have hstep : createEntityLoop id comps ((cid, props) :: tl) m = none := by
        simp only [createEntityLoop]
        rw [hc]
      rw [hstep] at h
      cases h
    | some c =>
      obtain ⟨cbit, cf, cs⟩ := c
      cases cf with
      | none =>
        have hstep : createEntityLoop id comps ((cid, props) :: tl) m
            = createEntityLoop id comps tl (m ||| cbit) := by
          simp only [createEntityLoop]
          rw [hc]
        rw [hstep] at h
        obtain ⟨hbits, hmask⟩ := ih comps (m ||| cbit) out h
        refine ⟨hbits, ?_⟩
        rw [hmask]
        simp [hc]
      | some f =>
        cases cs with
        | none =>
          have hstep : createEntityLoop id comps ((cid, props) :: tl) m
              = createEntityLoop id comps tl (m ||| cbit) := by
            simp only [createEntityLoop]
            rw [hc]
          rw [hstep] at h
          obtain ⟨hbits, hmask⟩ := ih comps (m ||| cbit) out h
          refine ⟨hbits, ?_⟩
          rw [hmask]
          simp [hc]
        | some s =>
          have hstep : createEntityLoop id comps ((cid, props) :: tl) m
              = createEntityLoop id
                  (comps.set cid ⟨cbit, some f, some (mapSet s id (f props))⟩)
                  tl (m ||| cbit) := by
            simp only [createEntityLoop]
            rw [hc]
          rw [hstep] at h
          obtain ⟨hbits, hmask⟩ := ih _ (m ||| cbit) out h
          have hset := getElem?_map_bit_set comps cid ⟨cbit, some f, some s⟩
            ⟨cbit, some f, some (mapSet s id (f props))⟩ hc rfl
          refine ⟨fun i => (hbits i).trans (hset i), ?_⟩
          rw [hmask]
          have hfun : (fun (acc : Nat) (e : Nat × List α) => acc |||
                (((comps.set cid
                    ⟨cbit, some f, some (mapSet s id (f props))⟩)[e.1]?).map
                  Component.bit).getD 0)
              = (fun (acc : Nat) (e : Nat × List α) => acc |||
                  ((comps[e.1]?).map Component.bit).getD 0) := by
            funext acc e
            rw [hset e.1]
          rw [hfun]
          simp [hc]

/-- Nulling slots can only turn list positions into `none`: every position
still live afterwards was live before, unchanged. -/
theorem nullSlots_live :
    ∀ (toDestroy : List Nat) (entities : List (Option Entity)) (i : Nat)
      (e : Entity), (nullSlots entities toDestroy)[i]? = some (some e) →
      entities[i]? = some (some e) := by
  intro td
  induction td with
  | nil => intro entities i e h; exact h
  | cons hd tl ih =>
    intro entities i e h
    have h2 := ih (entities.set hd none) i e h
    rcases eq_or_ne hd i with rfl | hne
    · by_cases hlt : hd < entities.length
      · rw [List.getElem?_set_self hlt] at h2
        simp at h2
      · rw [List.set_eq_of_length_le (Nat.le_of_not_lt hlt)] at h2
        exact h2
    · rw [List.getElem?_set_ne hne] at h2
      exact h2

/-- A successful purge preserves every entity slot it does not null:
every live entity of the purged world was live, with the same id and
mask, before the purge. -/
theorem purge_preserves_live {α : Type} {w w2 : World α}
    (h : purgeDestroyedEntities w = some w2) :
    ∀ (i : Nat) (e : Entity), w2.entities[i]? = some (some e) →
      w.entities[i]? = some (some e) := by
  unfold purgeDestroyedEntities at h
  by_cases hemp : w.entitiesToDestroy.isEmpty
  · rw [if_pos hemp] at h
    injection h with h
    subst h
    exact fun i e hi => hi
  · rw [if_neg hemp] at h
    split at h
    · exact absurd h (by simp)
    · split at h
      · exact absurd h (by simp)
      · injection h with h
        subst h
        intro i e hi
        exact nullSlots_live w.entitiesToDestroy w.entities i e hi

/-- `filterEntities` touches only the cache: entities, components, systems
and the destruction queue of the returned world are those of the input. -/
theorem filterEntities_frame {α : Type} (w : World α) (req exc : Nat) :
    (filterEntities w req exc).1.entities = w.entities ∧
    (filterEntities w req exc).1.components = w.components ∧
    (filterEntities w req exc).1.systems = w.systems ∧
    (filterEntities w req exc).1.entitiesToDestroy = w.entitiesToDestroy := by
  unfold filterEntities
  cases hl : lookupIndex w.entitiesIndex (req, exc) <;> simp

/-- The system loop of `step` never changes the entity list (each system
only reads it through the cache). -/
theorem stepSystems_entities {α : Type} :
    ∀ (sys : List System) (w w2 : World α)
      (calls : List (List Entity × List (List (Nat × α)))),
      stepSystems w sys = some (w2, calls) → w2.entities = w.entities := by
  intro sys
  induction sys with
  | nil =>
    intro w w2 calls h
    simp only [stepSystems, Option.some.injEq, Prod.mk.injEq] at h
    rw [← h.1]
  | cons s tl ih =>
    intro w w2 calls h
    simp only [stepSystems] at h
    split at h
    · exact absurd h (by simp)
    · split at h
      · exact absurd h (by simp)
      · rename_i sl hsl pr w3 calls3 hrec
        simp only [Option.some.injEq, Prod.mk.injEq] at h
        obtain ⟨hw, hcalls⟩ := h
        subst hw
        rw [ih _ _ _ hrec, (filterEntities_frame w s.require s.exclude).1]

/-- C7.  Mask consistency: a successful creation appends one entity whose
mask is exactly the OR of the bits of the staged components (earlier
slots untouched), and no other engine operation — component or system
registration, destruction enqueueing, querying, the purge, or the system
loop of a tick — ever changes a live entity's id or mask. -/
theorem C7_mask_consistency {α : Type} (w : World α) :
    (∀ (entries : List (Nat × List α)) (w2 : World α) (id : Nat),
      createEntity w entries = some (w2, id) →
        id = w.entities.length ∧
        w2.entities[id]? =
          some (some ⟨id, maskFromEntries w.components entries⟩) ∧
        ∀ i, i < w.entities.length → w2.entities[i]? = w.entities[i]?) ∧
    (∀ (f : Option (List α → α)), (addComponent w f).1.entities = w.entities) ∧
    (∀ ids w2 sid, addSystem w ids = some (w2, sid) →
      w2.entities = w.entities) ∧
    (∀ id, (destroyEntity w id).entities = w.entities) ∧
    (∀ ids w2 res, query w ids = some (w2, res) → w2.entities = w.entities) ∧
    (∀ w2, purgeDestroyedEntities w = some w2 →
      ∀ (i : Nat) (e : Entity), w2.entities[i]? = some (some e) →
        w.entities[i]? = some (some e)) ∧
    (∀ sys w2 calls, stepSystems w sys = some (w2, calls) →
      w2.entities = w.entities) := by
  refine ⟨?_, fun _ => rfl, ?_, fun _ => rfl, ?_, ?_, ?_⟩
  · intro entries w2 id h
    simp only [createEntity] at h
    split at h
    · exact absurd h (by simp)
    · rename_i pr comps2 mask hloop
      simp only [Option.some.injEq, Prod.mk.injEq] at h
      obtain ⟨hw, hid⟩ := h
      subst hid
      subst hw
      have hspec := createEntityLoop_spec w.entities.length entries
        w.components 0 (comps2, mask) hloop
      refine ⟨rfl, ?_, ?_⟩
      · have hmask : mask = maskFromEntries w.components entries := hspec.2
        subst hmask
        exact List.getElem?_concat_length _ _
      · intro i hi
        exact List.getElem?_append_left hi
  · intro ids w2 sid h
    unfold addSystem at h
    split at h
    · exact absurd h (by simp)
    · simp only [Option.some.injEq, Prod.mk.injEq] at h
      rw [← h.1]
  · intro ids w2 res h
    exact (query_preserves h).1
  · intro w2 h
    exact purge_preserves_live h
  · intro sys w2 calls h
    exact stepSystems_entities sys w w2 calls h

/-- World with one registered tag component (bit 1). -/
def c7World : World Nat := (addComponent emptyWorld none).1

/-- The world `createEntity c7World [(0, [])]` produces. -/
def c7World2 : World Nat :=
  { components := [⟨1, none, none⟩], entities := [some ⟨0, 1⟩],
    systems := [], entitiesIndex := [], entitiesToDestroy := [] }

/-- Witness for `C7_mask_consistency`: creating one entity carrying the
tag component yields mask 1 = the OR of its components' bits. -/
theorem C7_mask_consistency_witness :
    createEntity c7World [(0, [])] = some (c7World2, 0) ∧
    c7World2.entities[0]? =
      some (some ⟨0, maskFromEntries c7World.components [(0, [])]⟩) :=
  ⟨rfl, ((C7_mask_consistency c7World).1 [(0, [])] c7World2 0 rfl).2.1⟩

end ECS
